import Mathlib

/-!
Shallow embedding of the CoffeeManagerV2 access-control core: the state
machine of `src/controller/coffee_controller.py` together with the parts of
`src/database/database_manager.py` it calls.

Modelling conventions.  Timestamps are wall-clock epoch seconds, modelled
as integers; every `time.time()` call within a single loop iteration is
modelled as the same instant `now`.  GPIO output pins (two indicator LEDs,
four relay channels) are boolean fields of the controller state.  The
record store is an explicit `Db` value threaded through each step, and an
`Effect` trace records the externally visible calls an iteration makes
(store lookups and writes, reader reset pulses, process restart).
-/

namespace CoffeeManager

/-- A row of the `users` table as read by the controller
(`database_manager.py`, `get_user`); the SQLite integer flags are kept as
`Int`. -/
structure UserRec where
  userName : String
  name : String
  active : Int
  barred : Int
deriving Repr, DecidableEq

/-- The record store: `users` and `settings` tables as association lists
(insertion order preserved), plus the `usage_log` rows written by the
controller. -/
structure Db where
  users : List (String × UserRec)
  settings : List (String × String)
  usageLog : List String
deriving Repr, DecidableEq

/-- `CoffeeDatabaseManager.get_user`: the row with the given token id. -/
def Db.getUser (db : Db) (tokenId : String) : Option UserRec :=
  (db.users.find? (fun p => p.1 == tokenId)).map Prod.snd

/-- `CoffeeDatabaseManager.get_setting`. -/
def Db.getSetting (db : Db) (key : String) : Option String :=
  (db.settings.find? (fun p => p.1 == key)).map Prod.snd

/-- Key upsert, modelling `set_setting`'s
`INSERT .. ON CONFLICT(key) DO UPDATE SET value = excluded.value`. -/
def upsertSetting : List (String × String) → String → String → List (String × String)
  | [], key, v => [(key, v)]
  | (key', v') :: rest, key, v =>
      if key' == key then (key, v) :: rest else (key', v') :: upsertSetting rest key v

/-- `CoffeeDatabaseManager.set_setting`. -/
def Db.setSetting (db : Db) (key v : String) : Db :=
  { db with settings := upsertSetting db.settings key v }

/-- `CoffeeDatabaseManager.add_pending_user`:
`INSERT .. ON CONFLICT(token_id) DO NOTHING` creating the row
`(token_id, "pending_<id>", "Pending", active = 0, barred = 1)`. -/
def Db.addPendingUser (db : Db) (tokenId : String) : Db :=
  if (db.getUser tokenId).isSome then db
  else { db with
          users := db.users ++ [(tokenId, ⟨"pending_" ++ tokenId, "Pending", 0, 1⟩)] }

/-- `CoffeeDatabaseManager.log_coffee_usage`, reduced to the token id (the
controller always passes category `'unknown'`). -/
def Db.logUsage (db : Db) (tokenId : String) : Db :=
  { db with usageLog := db.usageLog ++ [tokenId] }

/-- The mutable state of `CoffeeController`, including the GPIO output pins
it drives.  `masterTokenId` is resolved once in `__init__` and never
changes afterwards. -/
structure ControllerState where
  masterTokenId : Option String
  masterMode : Bool
  scanMode : Bool
  lockUntilEpoch : Int
  securityLockUntilEpoch : Int
  invalidAttemptTimestamps : List Int
  relayDeactivationTime : Int
  lastUsedTime : Int
  lastScanTime : Int
  lastNfcResetTime : Int
  ledRed : Bool
  ledGreen : Bool
  relayPower : Bool
  relaySingle : Bool
  relayDouble : Bool
  relaySteam : Bool
deriving Repr, DecidableEq

/-- Argument of `set_led_status`. -/
inductive LedStatus
  | ready
  | active
  | master
  | off
deriving Repr, DecidableEq

/-- `set_led_status`: 'ready' = red, 'active' = green, 'master' = both,
'off' = both off. -/
def setLedStatus (status : LedStatus) (st : ControllerState) : ControllerState :=
  match status with
  | .ready => { st with ledRed := true, ledGreen := false }
  | .active => { st with ledRed := false, ledGreen := true }
  | .master => { st with ledRed := true, ledGreen := true }
  | .off => { st with ledRed := false, ledGreen := false }

/-- Drive all four relay output pins to the same level. -/
def setAllRelays (level : Bool) (st : ControllerState) : ControllerState :=
  { st with relayPower := level, relaySingle := level,
            relayDouble := level, relaySteam := level }

/-- `NFC_PERIODIC_RESET_INTERVAL = 30 * 60`. -/
def NFC_PERIODIC_RESET_INTERVAL : Int := 30 * 60

/-- `NFC_WATCHDOG_TIMEOUT = 15 * 60`. -/
def NFC_WATCHDOG_TIMEOUT : Int := 15 * 60

/-- `_prune_invalid_attempts`: pop entries older than 60 s off the front of
the deque while the front entry is older (a front trim, not a filter). -/
def pruneInvalidAttempts (now : Int) : List Int → List Int
  | [] => []
  | t :: rest => if t < now - 60 then pruneInvalidAttempts now rest else t :: rest

/-- `_record_invalid_attempt_and_maybe_lock`: prune, append `now`, and on
more than 10 entries engage the 5-minute lockout, clear the window and turn
the LEDs off. -/
def recordInvalidAttemptAndMaybeLock (now : Int) (st : ControllerState) : ControllerState :=
  let attempts := pruneInvalidAttempts now st.invalidAttemptTimestamps ++ [now]
  if attempts.length > 10 then
    setLedStatus .off
      { st with securityLockUntilEpoch := now + 5 * 60,
                invalidAttemptTimestamps := [] }
  else { st with invalidAttemptTimestamps := attempts }

/-- `is_relay_active`: deactivation timer set and not yet expired, or
master mode engaged. -/
def isRelayActive (now : Int) (st : ControllerState) : Bool :=
  if st.relayDeactivationTime > 0 ∧ now < st.relayDeactivationTime then true
  else st.masterMode

/-- `enter_master_mode`: no-op when already in master mode; otherwise set
the flag, show the 'master' LED pattern and force all relays on. -/
def enterMasterMode (st : ControllerState) : ControllerState :=
  if st.masterMode then st
  else setAllRelays true (setLedStatus .master { st with masterMode := true })

/-- `exit_master_mode`: no-op when not in master mode; otherwise clear the
flag, force all relays off and return the LED to 'ready'. -/
def exitMasterMode (st : ControllerState) : ControllerState :=
  if st.masterMode then
    setLedStatus .ready (setAllRelays false { st with masterMode := false })
  else st

/-- `activate_all_relays`: all relays on, deactivation timer set to
`now + duration`. -/
def activateAllRelays (now duration : Int) (st : ControllerState) : ControllerState :=
  { setAllRelays true st with relayDeactivationTime := now + duration }

/-- `check_and_deactivate_relays`: when the timer is set and expired, all
relays off, timer cleared, LED back to 'ready'; otherwise no-op. -/
def checkAndDeactivateRelays (now : Int) (st : ControllerState) : ControllerState :=
  if st.relayDeactivationTime > 0 ∧ now ≥ st.relayDeactivationTime then
    setLedStatus .ready { setAllRelays false st with relayDeactivationTime := 0 }
  else st

/-- The record test inside `is_token_authorized`: row exists, `active = 1`
and not `barred = 1`. -/
def tokenUsable (db : Db) (tokenId : String) : Bool :=
  match db.getUser tokenId with
  | none => false
  | some u => u.active == 1 && u.barred != 1

/-- `is_token_authorized`: in scan mode every token is unauthorized and the
store is not consulted. -/
def isTokenAuthorized (st : ControllerState) (db : Db) (tokenId : String) : Bool :=
  if st.scanMode then false else tokenUsable db tokenId

/-- Externally visible calls made during one loop iteration. -/
inductive Effect
  | getUser (tokenId : String)
  | addPendingUser (tokenId : String)
  | logUsage (tokenId : String)
  | setSetting (key v : String)
  | getSetting (key : String)
  | nfcReset (periodic : Bool)
  | restartScript
deriving Repr, DecidableEq

/-- The guard `if self.master_token_id and uid == self.master_token_id`:
in Python both `None` and the empty string are falsy. -/
def isMasterUid (masterTok : Option String) (uid : String) : Bool :=
  match masterTok with
  | none => false
  | some m => m != "" && uid == m

/-- The NFC maintenance block at the top of `run`'s loop: periodic reset,
`elif` watchdog, each gated on `is_relay_active`.  `reinit_nfc_reader` is
inlined: its hardware outcome is the input `reinitOk`; on success it sets
both timing trackers to `now`, on failure it leaves the state unchanged
and the loop escalates to `restart_script`, recorded by the returned
flag (after which the iteration does not continue). -/
def nfcMaintenance (now : Int) (reinitOk : Bool) (st : ControllerState) :
    ControllerState × List Effect × Bool :=
  if now - st.lastNfcResetTime > NFC_PERIODIC_RESET_INTERVAL then
    if isRelayActive now st then (st, [], false)
    else if reinitOk then
      ({ st with lastScanTime := now, lastNfcResetTime := now }, [.nfcReset true], false)
    else (st, [.nfcReset true, .restartScript], true)
  else if now - st.lastScanTime > NFC_WATCHDOG_TIMEOUT then
    if isRelayActive now st then (st, [], false)
    else if reinitOk then
      ({ st with lastScanTime := now, lastNfcResetTime := now }, [.nfcReset false], false)
    else (st, [.nfcReset false, .restartScript], true)
  else (st, [], false)

/-- The card-handling block of `run` after a successful read: update the
watchdog tracker, then in order master toggle (clearing an active
lockout), security-lockout gate, master-mode gate, engagement gate,
enrolment (scan-mode) branch, and finally normal authorization with the
denial path recording an invalid attempt. -/
def handleCard (now : Int) (uid : String) (st : ControllerState) (db : Db) :
    ControllerState × Db × List Effect :=
  let st := { st with lastScanTime := now }
  if isMasterUid st.masterTokenId uid then
    let st :=
      if now < st.securityLockUntilEpoch then
        { st with securityLockUntilEpoch := 0, invalidAttemptTimestamps := [] }
      else st
    (if st.masterMode then exitMasterMode st else enterMasterMode st, db, [])
  else if now < st.securityLockUntilEpoch then
    (setLedStatus .off st, db, [])
  else if st.masterMode then
    (st, db, [])
  else if now < st.lockUntilEpoch then
    (st, db, [])
  else if st.scanMode then
    let db1 := (db.setSetting "last_scanned_token" uid).setSetting
      "last_scanned_at" (toString now)
    let existing := db1.getUser uid
    let db2 := if existing.isSome then db1 else db1.addPendingUser uid
    (st, db2,
      [.setSetting "last_scanned_token" uid, .setSetting "last_scanned_at" (toString now),
       .getUser uid] ++ if existing.isSome then [] else [.addPendingUser uid])
  else if isTokenAuthorized st db uid then
    let st := setLedStatus .active st
    let db := db.logUsage uid
    let timeSinceLast := now - st.lastUsedTime
    let activationSeconds : Int := if timeSinceLast > 10800 then 90 else 30
    let st := { st with lastUsedTime := now,
                        lockUntilEpoch := now + activationSeconds + 1 }
    (activateAllRelays now activationSeconds st, db, [.getUser uid, .logUsage uid])
  else
    (setLedStatus .ready (recordInvalidAttemptAndMaybeLock now st), db, [.getUser uid])

/-- Result of one iteration of `run`'s main loop. -/
structure StepOut where
  ctrl : ControllerState
  db : Db
  effects : List Effect
  restarted : Bool
deriving Repr, DecidableEq

/-- One iteration of the main loop in `run`: tick the relay timer, run NFC
maintenance (stopping if it escalated to a process restart), refresh
`scan_mode` from the settings store, then handle the card, if one was
read. -/
def runIteration (now : Int) (reinitOk : Bool) (uidRead : Option String)
    (st : ControllerState) (db : Db) : StepOut :=
  let st1 := checkAndDeactivateRelays now st
  let m := nfcMaintenance now reinitOk st1
  if m.2.2 then ⟨m.1, db, m.2.1, true⟩
  else
    let st2 := { m.1 with scanMode := db.getSetting "scan_mode" == some "1" }
    match uidRead with
    | none => ⟨st2, db, m.2.1 ++ [.getSetting "scan_mode"], false⟩
    | some uid =>
      let r := handleCard now uid st2 db
      ⟨r.1, r.2.1, m.2.1 ++ [.getSetting "scan_mode"] ++ r.2.2, false⟩

/-- Run successive loop iterations for a list of timed reader events, with
the reader reinit always succeeding. -/
def runScans : List (Int × Option String) → ControllerState → Db → ControllerState × Db
  | [], st, db => (st, db)
  | (now, uidRead) :: rest, st, db =>
      let out := runIteration now true uidRead st db
      runScans rest out.ctrl out.db

/-- Number of `users` rows carrying a given token id (observer used to
state uniqueness of pending records). -/
def countUser (db : Db) (tokenId : String) : Nat :=
  (db.users.filter (fun p => p.1 == tokenId)).length

/-- The controller state an iteration's card handling actually sees: after
the relay tick, the NFC maintenance block (reinit succeeding) and the
`scan_mode` refresh. -/
def refreshedState (now : Int) (st : ControllerState) (db : Db) : ControllerState :=
  { (nfcMaintenance now true (checkAndDeactivateRelays now st)).1 with
      scanMode := db.getSetting "scan_mode" == some "1" }

/-- A freshly started controller with no master token configured: LEDs at
'ready', all timers and the attempt window zeroed. -/
def idleState : ControllerState :=
  ⟨none, false, false, 0, 0, [], 0, 0, 0, 0, true, false, false, false, false, false⟩

/-- A store with no users and scan mode disabled. -/
def normalModeStore : Db := ⟨[], [("scan_mode", "0")], []⟩

/-- Ten reads of the unknown token `"deadbeef"` at epoch seconds 0..9. -/
def invalidBurst : List (Int × Option String) :=
  [(0, some "deadbeef"), (1, some "deadbeef"), (2, some "deadbeef"),
   (3, some "deadbeef"), (4, some "deadbeef"), (5, some "deadbeef"),
   (6, some "deadbeef"), (7, some "deadbeef"), (8, some "deadbeef"),
   (9, some "deadbeef")]

/-- A controller in master mode (master token `"aa"`), with ten invalid
attempts already in the rolling window but no active lockout. -/
def masterTenAttemptsState : ControllerState :=
  ⟨some "aa", true, false, 0, 0, [1, 2, 3, 4, 5, 6, 7, 8, 9, 10], 0, 0, 0, 0,
   true, true, true, true, true, true⟩

/-- An idle controller whose two indicator LEDs are both off (as after a
lockout has darkened them). -/
def darkIdleState : ControllerState :=
  ⟨none, false, false, 0, 0, [], 0, 0, 0, 0, false, false, false, false, false, false⟩

/-- A controller whose invalid-attempt window is not in chronological
order: the entry 100 (old at `now = 200`) sits behind the entry 190. -/
def unsortedWindowState : ControllerState :=
  ⟨none, false, false, 0, 0, [190, 100], 0, 0, 0, 0, true, false, false, false, false, false⟩

/-- A store containing one enabled user (token `"cafe"`), scan mode off. -/
def oneUserStore : Db :=
  ⟨[("cafe", ⟨"u1", "User One", 1, 0⟩)], [("scan_mode", "0")], []⟩

/-- A store with enrolment (scan) mode enabled and no users. -/
def scanModeStore : Db := ⟨[], [("scan_mode", "1")], []⟩

/-! ### Frame lemmas for the relay tick and the NFC maintenance block -/

@[simp] lemma tick_masterTokenId (now : Int) (st : ControllerState) :
    (checkAndDeactivateRelays now st).masterTokenId = st.masterTokenId := by
  unfold checkAndDeactivateRelays; split_ifs <;> rfl

@[simp] lemma tick_masterMode (now : Int) (st : ControllerState) :
    (checkAndDeactivateRelays now st).masterMode = st.masterMode := by
  unfold checkAndDeactivateRelays; split_ifs <;> rfl

@[simp] lemma tick_scanMode (now : Int) (st : ControllerState) :
    (checkAndDeactivateRelays now st).scanMode = st.scanMode := by
  unfold checkAndDeactivateRelays; split_ifs <;> rfl

@[simp] lemma tick_securityLock (now : Int) (st : ControllerState) :
    (checkAndDeactivateRelays now st).securityLockUntilEpoch = st.securityLockUntilEpoch := by
  unfold checkAndDeactivateRelays; split_ifs <;> rfl

@[simp] lemma tick_lockUntil (now : Int) (st : ControllerState) :
    (checkAndDeactivateRelays now st).lockUntilEpoch = st.lockUntilEpoch := by
  unfold checkAndDeactivateRelays; split_ifs <;> rfl

@[simp] lemma tick_invalidAttempts (now : Int) (st : ControllerState) :
    (checkAndDeactivateRelays now st).invalidAttemptTimestamps = st.invalidAttemptTimestamps := by
  unfold checkAndDeactivateRelays; split_ifs <;> rfl

@[simp] lemma tick_lastUsedTime (now : Int) (st : ControllerState) :
    (checkAndDeactivateRelays now st).lastUsedTime = st.lastUsedTime := by
  unfold checkAndDeactivateRelays; split_ifs <;> rfl

@[simp] lemma tick_lastScanTime (now : Int) (st : ControllerState) :
    (checkAndDeactivateRelays now st).lastScanTime = st.lastScanTime := by
  unfold checkAndDeactivateRelays; split_ifs <;> rfl

@[simp] lemma tick_lastNfcResetTime (now : Int) (st : ControllerState) :
    (checkAndDeactivateRelays now st).lastNfcResetTime = st.lastNfcResetTime := by
  unfold checkAndDeactivateRelays; split_ifs <;> rfl

lemma tick_of_timer_zero (now : Int) (st : ControllerState)
    (h : st.relayDeactivationTime = 0) : checkAndDeactivateRelays now st = st := by
  unfold checkAndDeactivateRelays
  rw [if_neg]
  rw [h]
  simp

lemma isRelayActive_tick (now : Int) (st : ControllerState) :
    isRelayActive now (checkAndDeactivateRelays now st) = isRelayActive now st := by
  unfold checkAndDeactivateRelays
  split_ifs with h
  · simp only [isRelayActive, setLedStatus, setAllRelays]
    rw [if_neg (by omega), if_neg (by omega)]
  · rfl

@[simp] lemma nfcMaintenance_masterTokenId (now : Int) (ok : Bool) (st : ControllerState) :
    (nfcMaintenance now ok st).1.masterTokenId = st.masterTokenId := by
  unfold nfcMaintenance; split_ifs <;> rfl

@[simp] lemma nfcMaintenance_masterMode (now : Int) (ok : Bool) (st : ControllerState) :
    (nfcMaintenance now ok st).1.masterMode = st.masterMode := by
  unfold nfcMaintenance; split_ifs <;> rfl

@[simp] lemma nfcMaintenance_scanMode (now : Int) (ok : Bool) (st : ControllerState) :
    (nfcMaintenance now ok st).1.scanMode = st.scanMode := by
  unfold nfcMaintenance; split_ifs <;> rfl

@[simp] lemma nfcMaintenance_securityLock (now : Int) (ok : Bool) (st : ControllerState) :
    (nfcMaintenance now ok st).1.securityLockUntilEpoch = st.securityLockUntilEpoch := by
  unfold nfcMaintenance; split_ifs <;> rfl

@[simp] lemma nfcMaintenance_lockUntil (now : Int) (ok : Bool) (st : ControllerState) :
    (nfcMaintenance now ok st).1.lockUntilEpoch = st.lockUntilEpoch := by
  unfold nfcMaintenance; split_ifs <;> rfl

@[simp] lemma nfcMaintenance_invalidAttempts (now : Int) (ok : Bool) (st : ControllerState) :
    (nfcMaintenance now ok st).1.invalidAttemptTimestamps = st.invalidAttemptTimestamps := by
  unfold nfcMaintenance; split_ifs <;> rfl

@[simp] lemma nfcMaintenance_lastUsedTime (now : Int) (ok : Bool) (st : ControllerState) :
    (nfcMaintenance now ok st).1.lastUsedTime = st.lastUsedTime := by
  unfold nfcMaintenance; split_ifs <;> rfl

@[simp] lemma nfcMaintenance_relayTimer (now : Int) (ok : Bool) (st : ControllerState) :
    (nfcMaintenance now ok st).1.relayDeactivationTime = st.relayDeactivationTime := by
  unfold nfcMaintenance; split_ifs <;> rfl

@[simp] lemma nfcMaintenance_ledRed (now : Int) (ok : Bool) (st : ControllerState) :
    (nfcMaintenance now ok st).1.ledRed = st.ledRed := by
  unfold nfcMaintenance; split_ifs <;> rfl

@[simp] lemma nfcMaintenance_ledGreen (now : Int) (ok : Bool) (st : ControllerState) :
    (nfcMaintenance now ok st).1.ledGreen = st.ledGreen := by
  unfold nfcMaintenance; split_ifs <;> rfl

@[simp] lemma nfcMaintenance_relayPower (now : Int) (ok : Bool) (st : ControllerState) :
    (nfcMaintenance now ok st).1.relayPower = st.relayPower := by
  unfold nfcMaintenance; split_ifs <;> rfl

@[simp] lemma nfcMaintenance_relaySingle (now : Int) (ok : Bool) (st : ControllerState) :
    (nfcMaintenance now ok st).1.relaySingle = st.relaySingle := by
  unfold nfcMaintenance; split_ifs <;> rfl

@[simp] lemma nfcMaintenance_relayDouble (now : Int) (ok : Bool) (st : ControllerState) :
    (nfcMaintenance now ok st).1.relayDouble = st.relayDouble := by
  unfold nfcMaintenance; split_ifs <;> rfl

@[simp] lemma nfcMaintenance_relaySteam (now : Int) (ok : Bool) (st : ControllerState) :
    (nfcMaintenance now ok st).1.relaySteam = st.relaySteam := by
  unfold nfcMaintenance; split_ifs <;> rfl

@[simp] lemma nfcMaintenance_ok_restart (now : Int) (st : ControllerState) :
    (nfcMaintenance now true st).2.2 = false := by
  unfold nfcMaintenance; split_ifs <;> simp_all

lemma nfcMaintenance_effects_shape (now : Int) (ok : Bool) (st : ControllerState) :
    ∀ e ∈ (nfcMaintenance now ok st).2.1,
      e = Effect.nfcReset true ∨ e = Effect.nfcReset false ∨ e = Effect.restartScript := by
  unfold nfcMaintenance; split_ifs <;> simp

/-! ### Store lemmas -/

@[simp] lemma getUser_setSetting (db : Db) (key v tokenId : String) :
    (db.setSetting key v).getUser tokenId = db.getUser tokenId := rfl

@[simp] lemma users_setSetting (db : Db) (key v : String) :
    (db.setSetting key v).users = db.users := rfl

@[simp] lemma usageLog_setSetting (db : Db) (key v : String) :
    (db.setSetting key v).usageLog = db.usageLog := rfl

lemma find_upsert_ne (l : List (String × String)) (key v key' : String)
    (h : key' ≠ key) :
    (upsertSetting l key v).find? (fun p => p.1 == key') = l.find? (fun p => p.1 == key') := by
  have h1 : (key == key') = false := beq_eq_false_iff_ne.mpr (fun he => h he.symm)
  induction l with
  | nil => simp [upsertSetting, List.find?, h1]
  | cons hd tl ih =>
      unfold upsertSetting
      by_cases hk : hd.1 == key
      · rw [if_pos hk]
        have h2 : (hd.1 == key') = false := by
          rw [beq_iff_eq.mp hk]; exact h1
        simp [List.find?, h1, h2]
      · rw [if_neg hk]
        simp only [List.find?]
        by_cases h2 : hd.1 == key'
        · simp [h2]
        · simp only [h2]
          exact ih

lemma getSetting_setSetting_ne (db : Db) (key v key' : String) (h : key' ≠ key) :
    (db.setSetting key v).getSetting key' = db.getSetting key' := by
  unfold Db.setSetting Db.getSetting
  rw [find_upsert_ne db.settings key v key' h]

@[simp] lemma getSetting_addPending (db : Db) (tokenId key : String) :
    (db.addPendingUser tokenId).getSetting key = db.getSetting key := by
  unfold Db.addPendingUser
  split_ifs <;> rfl

lemma getUser_none_find (db : Db) (tokenId : String) (h : db.getUser tokenId = none) :
    db.users.find? (fun p => p.1 == tokenId) = none := by
  unfold Db.getUser at h
  cases hf : db.users.find? (fun p => p.1 == tokenId) with
  | none => rfl
  | some p => rw [hf] at h; simp at h

lemma getUser_addPending_self (db : Db) (tokenId : String) (h : db.getUser tokenId = none) :
    (db.addPendingUser tokenId).getUser tokenId =
      some ⟨"pending_" ++ tokenId, "Pending", 0, 1⟩ := by
  unfold Db.addPendingUser
  rw [h]
  simp only [Option.isSome_none, Bool.false_eq_true, if_false]
  unfold Db.getUser
  rw [List.find?_append, getUser_none_find db tokenId h]
  simp [List.find?]

lemma countUser_eq_zero (db : Db) (tokenId : String) (h : db.getUser tokenId = none) :
    countUser db tokenId = 0 := by
  unfold countUser
  have hf := getUser_none_find db tokenId h
  rw [List.find?_eq_none] at hf
  rw [List.filter_eq_nil_iff.mpr (fun p hp => by simpa using hf p hp)]
  rfl

lemma countUser_addPending_absent (db : Db) (tokenId : String)
    (h : db.getUser tokenId = none) :
    countUser (db.addPendingUser tokenId) tokenId = 1 := by
  unfold Db.addPendingUser
  rw [h]
  simp only [Option.isSome_none, Bool.false_eq_true, if_false]
  unfold countUser
  rw [List.filter_append]
  have h0 : countUser db tokenId = 0 := countUser_eq_zero db tokenId h
  unfold countUser at h0
  rw [List.length_eq_zero.mp h0]
  simp

/-! ### The state card handling sees, and the shape of one iteration -/

@[simp] lemma refreshedState_masterTokenId (now : Int) (st : ControllerState) (db : Db) :
    (refreshedState now st db).masterTokenId = st.masterTokenId := by
  simp [refreshedState]

@[simp] lemma refreshedState_masterMode (now : Int) (st : ControllerState) (db : Db) :
    (refreshedState now st db).masterMode = st.masterMode := by
  simp [refreshedState]

@[simp] lemma refreshedState_scanMode (now : Int) (st : ControllerState) (db : Db) :
    (refreshedState now st db).scanMode = (db.getSetting "scan_mode" == some "1") := rfl

@[simp] lemma refreshedState_securityLock (now : Int) (st : ControllerState) (db : Db) :
    (refreshedState now st db).securityLockUntilEpoch = st.securityLockUntilEpoch := by
  simp [refreshedState]

@[simp] lemma refreshedState_lockUntil (now : Int) (st : ControllerState) (db : Db) :
    (refreshedState now st db).lockUntilEpoch = st.lockUntilEpoch := by
  simp [refreshedState]

@[simp] lemma refreshedState_invalidAttempts (now : Int) (st : ControllerState) (db : Db) :
    (refreshedState now st db).invalidAttemptTimestamps = st.invalidAttemptTimestamps := by
  simp [refreshedState]

@[simp] lemma refreshedState_lastUsedTime (now : Int) (st : ControllerState) (db : Db) :
    (refreshedState now st db).lastUsedTime = st.lastUsedTime := by
  simp [refreshedState]

lemma refreshedState_relays (now : Int) (st : ControllerState) (db : Db)
    (h : st.relayDeactivationTime = 0) :
    (refreshedState now st db).relayDeactivationTime = 0 ∧
    (refreshedState now st db).relayPower = st.relayPower ∧
    (refreshedState now st db).relaySingle = st.relaySingle ∧
    (refreshedState now st db).relayDouble = st.relayDouble ∧
    (refreshedState now st db).relaySteam = st.relaySteam := by
  unfold refreshedState
  rw [tick_of_timer_zero now st h]
  simp [h]

lemma runIteration_some_eq (now : Int) (uid : String) (st : ControllerState) (db : Db) :
    runIteration now true (some uid) st db =
      ⟨(handleCard now uid (refreshedState now st db) db).1,
       (handleCard now uid (refreshedState now st db) db).2.1,
       (nfcMaintenance now true (checkAndDeactivateRelays now st)).2.1 ++
         [Effect.getSetting "scan_mode"] ++
         (handleCard now uid (refreshedState now st db) db).2.2,
       false⟩ := by
  unfold runIteration refreshedState
  simp

/-! ### Branch lemmas for the card-handling block -/

@[simp] lemma handleCard_lastNfcResetTime (now : Int) (uid : String)
    (st : ControllerState) (db : Db) :
    (handleCard now uid st db).1.lastNfcResetTime = st.lastNfcResetTime := by
  simp only [handleCard, enterMasterMode, exitMasterMode, recordInvalidAttemptAndMaybeLock,
    activateAllRelays, setLedStatus, setAllRelays]
  split_ifs <;> rfl

@[simp] lemma handleCard_lastScanTime (now : Int) (uid : String)
    (st : ControllerState) (db : Db) :
    (handleCard now uid st db).1.lastScanTime = now := by
  simp only [handleCard, enterMasterMode, exitMasterMode, recordInvalidAttemptAndMaybeLock,
    activateAllRelays, setLedStatus, setAllRelays]
  split_ifs <;> rfl

lemma handleCard_effects_shape (now : Int) (uid : String)
    (st : ControllerState) (db : Db) :
    ∀ e ∈ (handleCard now uid st db).2.2,
      e = Effect.getUser uid ∨ e = Effect.logUsage uid ∨
      e = Effect.addPendingUser uid ∨
      e = Effect.setSetting "last_scanned_token" uid ∨
      e = Effect.setSetting "last_scanned_at" (toString now) := by
  simp only [handleCard]
  split_ifs <;> intro e he <;> simp at he <;> tauto

lemma handleCard_locked_eq (now : Int) (uid : String) (st : ControllerState) (db : Db)
    (hm : isMasterUid st.masterTokenId uid = false)
    (hl : now < st.securityLockUntilEpoch) :
    handleCard now uid st db =
      (setLedStatus .off { st with lastScanTime := now }, db, []) := by
  simp only [handleCard]
  simp [hm, hl]

lemma handleCard_master_locked_toggle (now : Int) (uid : String)
    (st : ControllerState) (db : Db)
    (hm : isMasterUid st.masterTokenId uid = true)
    (hl : now < st.securityLockUntilEpoch) :
    handleCard now uid st db =
      ((if st.masterMode then
          exitMasterMode
            { st with lastScanTime := now, securityLockUntilEpoch := 0,
                      invalidAttemptTimestamps := [] }
        else
          enterMasterMode
            { st with lastScanTime := now, securityLockUntilEpoch := 0,
                      invalidAttemptTimestamps := [] }), db, []) := by
  simp only [handleCard]
  simp [hm, hl]

lemma handleCard_from_cleared (now : Int) (uid : String)
    (st : ControllerState) (db : Db)
    (hwin : st.invalidAttemptTimestamps = [])
    (hsec : st.securityLockUntilEpoch = 0) :
    (handleCard now uid st db).1.securityLockUntilEpoch = 0 ∧
    ((handleCard now uid st db).1.invalidAttemptTimestamps = [] ∨
      (handleCard now uid st db).1.invalidAttemptTimestamps = [now]) := by
  simp only [handleCard, enterMasterMode, exitMasterMode, setLedStatus, setAllRelays,
    recordInvalidAttemptAndMaybeLock, activateAllRelays, isTokenAuthorized]
  split_ifs <;> simp_all [pruneInvalidAttempts]

lemma handleCard_scan_eq (now : Int) (uid : String) (st : ControllerState) (db : Db)
    (hm : isMasterUid st.masterTokenId uid = false)
    (hl : ¬ now < st.securityLockUntilEpoch)
    (hmm : st.masterMode = false)
    (heng : ¬ now < st.lockUntilEpoch)
    (hs : st.scanMode = true) :
    handleCard now uid st db =
      ({ st with lastScanTime := now },
       (if (db.getUser uid).isSome then
          (db.setSetting "last_scanned_token" uid).setSetting "last_scanned_at" (toString now)
        else
          ((db.setSetting "last_scanned_token" uid).setSetting "last_scanned_at"
            (toString now)).addPendingUser uid),
       [Effect.setSetting "last_scanned_token" uid,
        Effect.setSetting "last_scanned_at" (toString now), Effect.getUser uid] ++
         if (db.getUser uid).isSome then [] else [Effect.addPendingUser uid]) := by
  simp only [handleCard]
  simp [hm, hl, hmm, heng, hs]

lemma handleCard_denied_eq (now : Int) (uid : String) (st : ControllerState) (db : Db)
    (hm : isMasterUid st.masterTokenId uid = false)
    (hl : ¬ now < st.securityLockUntilEpoch)
    (hmm : st.masterMode = false)
    (heng : ¬ now < st.lockUntilEpoch)
    (hs : st.scanMode = false)
    (ha : tokenUsable db uid = false) :
    handleCard now uid st db =
      (setLedStatus .ready
        (recordInvalidAttemptAndMaybeLock now { st with lastScanTime := now }),
       db, [Effect.getUser uid]) := by
  simp only [handleCard, isTokenAuthorized]
  simp [hm, hl, hmm, heng, hs, ha]

lemma handleCard_authorized_eq (now : Int) (uid : String) (st : ControllerState) (db : Db)
    (hm : isMasterUid st.masterTokenId uid = false)
    (hl : ¬ now < st.securityLockUntilEpoch)
    (hmm : st.masterMode = false)
    (heng : ¬ now < st.lockUntilEpoch)
    (hs : st.scanMode = false)
    (ha : tokenUsable db uid = true) :
    handleCard now uid st db =
      (activateAllRelays now (if now - st.lastUsedTime > 10800 then 90 else 30)
        { setLedStatus .active { st with lastScanTime := now } with
            lastUsedTime := now,
            lockUntilEpoch := now + (if now - st.lastUsedTime > 10800 then 90 else 30) + 1 },
       db.logUsage uid,
       [Effect.getUser uid, Effect.logUsage uid]) := by
  simp only [handleCard, isTokenAuthorized]
  simp [hm, hl, hmm, heng, hs, ha, setLedStatus, setAllRelays, activateAllRelays]

lemma handleCard_window_mono (now : Int) (uid : String) (st : ControllerState) (db : Db)
    (hs : st.scanMode = true) :
    ((handleCard now uid st db).1.invalidAttemptTimestamps = st.invalidAttemptTimestamps ∨
      (handleCard now uid st db).1.invalidAttemptTimestamps = []) ∧
    ((handleCard now uid st db).1.securityLockUntilEpoch = st.securityLockUntilEpoch ∨
      (handleCard now uid st db).1.securityLockUntilEpoch = 0) := by
  simp only [handleCard, enterMasterMode, exitMasterMode, setLedStatus, setAllRelays]
  split_ifs <;> simp_all

/-! ### Lockout-guard lemmas -/

lemma pruneInvalidAttempts_sorted_eq_filter (now : Int) (l : List Int)
    (h : List.Sorted (· ≤ ·) l) :
    pruneInvalidAttempts now l = l.filter (fun t => decide (now - 60 ≤ t)) := by
  induction l with
  | nil => rfl
  | cons t rest ih =>
      rw [List.sorted_cons] at h
      unfold pruneInvalidAttempts
      by_cases hc : t < now - 60
      · rw [if_pos hc, ih h.2, List.filter_cons, if_neg (by simp; omega)]
      · have hrest : rest.filter (fun t => decide (now - 60 ≤ t)) = rest :=
          List.filter_eq_self.mpr (fun a ha => by
            have := h.1 a ha
            simp
            omega)
        rw [if_neg hc, List.filter_cons, if_pos (by simp; omega), hrest]

lemma recordInvalid_engages (now : Int) (st : ControllerState)
    (h : 10 ≤ (pruneInvalidAttempts now st.invalidAttemptTimestamps).length) :
    recordInvalidAttemptAndMaybeLock now st =
      setLedStatus .off
        { st with securityLockUntilEpoch := now + 5 * 60,
                  invalidAttemptTimestamps := [] } := by
  simp only [recordInvalidAttemptAndMaybeLock]
  rw [if_pos (by simp [List.length_append]; omega)]

lemma recordInvalid_below (now : Int) (st : ControllerState)
    (h : (pruneInvalidAttempts now st.invalidAttemptTimestamps).length < 10) :
    recordInvalidAttemptAndMaybeLock now st =
      { st with invalidAttemptTimestamps :=
          pruneInvalidAttempts now st.invalidAttemptTimestamps ++ [now] } := by
  simp only [recordInvalidAttemptAndMaybeLock]
  rw [if_neg (by simp [List.length_append]; omega)]

/-! ### NFC maintenance trigger lemmas -/

lemma nfcMaintenance_periodic_fired (now : Int) (st : ControllerState)
    (h1 : now - st.lastNfcResetTime > NFC_PERIODIC_RESET_INTERVAL)
    (h2 : isRelayActive now st = false) :
    nfcMaintenance now true st =
      ({ st with lastScanTime := now, lastNfcResetTime := now },
       [Effect.nfcReset true], false) := by
  simp [nfcMaintenance, h1, h2]

lemma nfcMaintenance_periodic_deferred (now : Int) (ok : Bool) (st : ControllerState)
    (h1 : now - st.lastNfcResetTime > NFC_PERIODIC_RESET_INTERVAL)
    (h2 : isRelayActive now st = true) :
    nfcMaintenance now ok st = (st, [], false) := by
  simp [nfcMaintenance, h1, h2]

lemma nfcMaintenance_watchdog_fired (now : Int) (st : ControllerState)
    (h1 : ¬ now - st.lastNfcResetTime > NFC_PERIODIC_RESET_INTERVAL)
    (h2 : now - st.lastScanTime > NFC_WATCHDOG_TIMEOUT)
    (h3 : isRelayActive now st = false) :
    nfcMaintenance now true st =
      ({ st with lastScanTime := now, lastNfcResetTime := now },
       [Effect.nfcReset false], false) := by
  simp [nfcMaintenance, h1, h2, h3]

lemma nfcMaintenance_watchdog_deferred (now : Int) (ok : Bool) (st : ControllerState)
    (h1 : ¬ now - st.lastNfcResetTime > NFC_PERIODIC_RESET_INTERVAL)
    (h2 : now - st.lastScanTime > NFC_WATCHDOG_TIMEOUT)
    (h3 : isRelayActive now st = true) :
    nfcMaintenance now ok st = (st, [], false) := by
  simp [nfcMaintenance, h1, h2, h3]

lemma nfcMaintenance_failed (now : Int) (st : ControllerState)
    (h1 : now - st.lastNfcResetTime > NFC_PERIODIC_RESET_INTERVAL ∨
      now - st.lastScanTime > NFC_WATCHDOG_TIMEOUT)
    (h2 : isRelayActive now st = false) :
    (nfcMaintenance now false st).2.2 = true ∧
    Effect.restartScript ∈ (nfcMaintenance now false st).2.1 := by
  by_cases hp : now - st.lastNfcResetTime > NFC_PERIODIC_RESET_INTERVAL
  · constructor <;> simp [nfcMaintenance, hp, h2]
  · have hw : now - st.lastScanTime > NFC_WATCHDOG_TIMEOUT := h1.resolve_left hp
    constructor <;> simp [nfcMaintenance, hp, hw, h2]

/-! ### A locked-out iteration ignores a non-master card -/

lemma runIteration_locked (now : Int) (uid : String) (st : ControllerState) (db : Db)
    (hm : isMasterUid st.masterTokenId uid = false)
    (hl : now < st.securityLockUntilEpoch) :
    (∀ t, Effect.getUser t ∉ (runIteration now true (some uid) st db).effects) ∧
    (runIteration now true (some uid) st db).ctrl.invalidAttemptTimestamps =
      st.invalidAttemptTimestamps ∧
    (runIteration now true (some uid) st db).ctrl.securityLockUntilEpoch =
      st.securityLockUntilEpoch ∧
    (runIteration now true (some uid) st db).ctrl.ledRed = false ∧
    (runIteration now true (some uid) st db).ctrl.ledGreen = false ∧
    (runIteration now true (some uid) st db).db = db := by
  rw [runIteration_some_eq]
  have hm2 : isMasterUid (refreshedState now st db).masterTokenId uid = false := by
    rw [refreshedState_masterTokenId]; exact hm
  have hl2 : now < (refreshedState now st db).securityLockUntilEpoch := by
    rw [refreshedState_securityLock]; exact hl
  rw [handleCard_locked_eq now uid (refreshedState now st db) db hm2 hl2]
  refine ⟨?_, ?_, ?_, ?_, ?_, ?_⟩
  · intro t ht
    simp only [List.append_nil, List.mem_append, List.mem_singleton] at ht
    rcases ht with h1 | h2
    · rcases nfcMaintenance_effects_shape now true (checkAndDeactivateRelays now st)
        (Effect.getUser t) h1 with h | h | h <;> exact Effect.noConfusion h
    · exact Effect.noConfusion h2
  · simp [setLedStatus]
  · simp [setLedStatus]
  · simp [setLedStatus]
  · simp [setLedStatus]
  · rfl

lemma handleCard_no_reset_effects (now : Int) (uid : String)
    (st : ControllerState) (db : Db) :
    (∀ b, Effect.nfcReset b ∉ (handleCard now uid st db).2.2) ∧
    Effect.restartScript ∉ (handleCard now uid st db).2.2 := by
  constructor
  · intro b hb
    rcases handleCard_effects_shape now uid st db _ hb with h | h | h | h | h <;>
      exact Effect.noConfusion h
  · intro hb
    rcases handleCard_effects_shape now uid st db _ hb with h | h | h | h | h <;>
      exact Effect.noConfusion h

/-- An iteration started from a state whose lockout deadline is 0 and
whose attempt window is empty never re-engages a lockout: the deadline
stays 0 and the window holds at most the scan's own timestamp. -/
lemma runIteration_from_cleared (now : Int) (uid : String)
    (st : ControllerState) (db : Db)
    (hwin : st.invalidAttemptTimestamps = [])
    (hsec : st.securityLockUntilEpoch = 0) :
    (runIteration now true (some uid) st db).ctrl.securityLockUntilEpoch = 0 ∧
    ((runIteration now true (some uid) st db).ctrl.invalidAttemptTimestamps = [] ∨
      (runIteration now true (some uid) st db).ctrl.invalidAttemptTimestamps = [now]) := by
  rw [runIteration_some_eq]
  have h := handleCard_from_cleared now uid (refreshedState now st db) db
    (by rw [refreshedState_invalidAttempts]; exact hwin)
    (by rw [refreshedState_securityLock]; exact hsec)
  exact ⟨by simpa using h.1, by simpa using h.2⟩

/-! ## Claims -/

/-- C9: whenever the relay deactivation deadline is set and `now` has
reached it, the first tick switches all four relay outputs off, clears the
deadline and returns the indicator to 'ready' (red on, green off); any
further tick of the resulting state, at any time, is a no-op, so the OFF
effect is produced exactly once after the deadline passes. -/
theorem relay_tick_off_once (now : Int) (st : ControllerState)
    (h1 : st.relayDeactivationTime > 0)
    (h2 : now ≥ st.relayDeactivationTime) :
    (checkAndDeactivateRelays now st).relayPower = false ∧
    (checkAndDeactivateRelays now st).relaySingle = false ∧
    (checkAndDeactivateRelays now st).relayDouble = false ∧
    (checkAndDeactivateRelays now st).relaySteam = false ∧
    (checkAndDeactivateRelays now st).relayDeactivationTime = 0 ∧
    (checkAndDeactivateRelays now st).ledRed = true ∧
    (checkAndDeactivateRelays now st).ledGreen = false ∧
    ∀ t2 : Int, checkAndDeactivateRelays t2 (checkAndDeactivateRelays now st) =
      checkAndDeactivateRelays now st := by
  unfold checkAndDeactivateRelays
  rw [if_pos ⟨h1, h2⟩]
  refine ⟨rfl, rfl, rfl, rfl, rfl, rfl, rfl, ?_⟩
  intro t2
  rw [if_neg (by simp [setLedStatus, setAllRelays])]

/-- C9 witness: the tick at 30 of an idle controller whose deadline was
set to 30 clears the deadline. -/
theorem relay_tick_off_once_witness :
    ({ idleState with relayDeactivationTime := 30 } : ControllerState).relayDeactivationTime > 0 ∧
    (30 : Int) ≥ ({ idleState with relayDeactivationTime := 30 } : ControllerState).relayDeactivationTime ∧
    (checkAndDeactivateRelays 30
      { idleState with relayDeactivationTime := 30 }).relayDeactivationTime = 0 :=
  ⟨by decide, by decide,
   (relay_tick_off_once 30 { idleState with relayDeactivationTime := 30 }
     (by decide) (by decide)).2.2.2.2.1⟩

/-- C8 counterexample: starting from an idle state whose LEDs are both
off, `enter(); exit()` does not restore the pre-entry state: the exit path
unconditionally sets the indicator to 'ready' (red on), so the claimed
involution fails. -/
theorem master_toggle_not_involution_cex :
    exitMasterMode (enterMasterMode darkIdleState) ≠ darkIdleState ∧
    (exitMasterMode (enterMasterMode darkIdleState)).ledRed = true ∧
    darkIdleState.ledRed = false := by
  decide

/-- C8 (amended): `enter(); exit()` from a non-master state always leaves
the indicator at 'ready' and all relays off — hence it restores the
pre-entry state exactly when the pre-entry indicator was 'ready' and the
relays were off; `enter()` while master mode is active and `exit()` while
it is inactive are no-ops, and `enter(); enter()` equals a single
`enter()`. -/
theorem master_toggle_spec :
    (∀ st : ControllerState, st.masterMode = false →
      exitMasterMode (enterMasterMode st) = setAllRelays false (setLedStatus .ready st)) ∧
    (∀ st : ControllerState, st.masterMode = false → st.ledRed = true → st.ledGreen = false →
      st.relayPower = false → st.relaySingle = false → st.relayDouble = false →
      st.relaySteam = false →
      exitMasterMode (enterMasterMode st) = st) ∧
    (∀ st : ControllerState, st.masterMode = true → enterMasterMode st = st) ∧
    (∀ st : ControllerState, st.masterMode = false → exitMasterMode st = st) ∧
    (∀ st : ControllerState, enterMasterMode (enterMasterMode st) = enterMasterMode st) := by
  refine ⟨?_, ?_, ?_, ?_, ?_⟩
  · intro st h
    simp [enterMasterMode, exitMasterMode, setAllRelays, setLedStatus, h]
  · intro st h hr hg p1 p2 p3 p4
    cases st
    simp_all [enterMasterMode, exitMasterMode, setAllRelays, setLedStatus]
  · intro st h
    simp [enterMasterMode, h]
  · intro st h
    simp [exitMasterMode, h]
  · intro st
    by_cases h : st.masterMode
    · simp [enterMasterMode, h]
    · simp [enterMasterMode, setAllRelays, setLedStatus, h]

/-- C8 witness: on the ready idle state (red LED on, relays off) the
enter/exit round trip does restore the state exactly. -/
theorem master_toggle_spec_witness :
    idleState.masterMode = false ∧
    exitMasterMode (enterMasterMode idleState) = idleState :=
  ⟨rfl, master_toggle_spec.2.1 idleState rfl rfl rfl rfl rfl rfl rfl⟩

/-- C2 counterexample: on a window that is not in chronological order
(`[190, 100]` at `now = 200`), recording an invalid attempt does not
remove the entry 100 although it is older than 60 seconds: the prune is a
front trim that stops at the first young entry, so the claim's "removes
all timestamps older than 60 seconds" fails for arbitrary states. -/
theorem record_invalid_unsorted_window_cex :
    (recordInvalidAttemptAndMaybeLock 200 unsortedWindowState).invalidAttemptTimestamps =
      [190, 100, 200] ∧
    (100 : Int) < 200 - 60 := by
  decide

/-- C2 (amended): for every state whose invalid-attempt window is in
chronological order — an invariant of all states the controller actually
reaches — recording an invalid attempt first removes exactly the
timestamps older than 60 seconds, then appends `now`; if the window then
holds more than 10 entries the lockout deadline becomes `now + 300` and
the window is emptied, otherwise the deadline is unchanged and the window
is the pruned list with `now` appended. -/
theorem record_invalid_spec_sorted (now : Int) (st : ControllerState)
    (hsorted : List.Sorted (· ≤ ·) st.invalidAttemptTimestamps) :
    if (st.invalidAttemptTimestamps.filter (fun t => decide (now - 60 ≤ t)) ++ [now]).length > 10 then
      (recordInvalidAttemptAndMaybeLock now st).securityLockUntilEpoch = now + 300 ∧
      (recordInvalidAttemptAndMaybeLock now st).invalidAttemptTimestamps = []
    else
      (recordInvalidAttemptAndMaybeLock now st).securityLockUntilEpoch =
        st.securityLockUntilEpoch ∧
      (recordInvalidAttemptAndMaybeLock now st).invalidAttemptTimestamps =
        st.invalidAttemptTimestamps.filter (fun t => decide (now - 60 ≤ t)) ++ [now] := by
  rw [← pruneInvalidAttempts_sorted_eq_filter now st.invalidAttemptTimestamps hsorted]
  by_cases hlen : (pruneInvalidAttempts now st.invalidAttemptTimestamps ++ [now]).length > 10
  · rw [if_pos hlen,
      recordInvalid_engages now st
        (by simp only [List.length_append, List.length_singleton] at hlen; omega)]
    constructor
    · simp [setLedStatus]
    · simp [setLedStatus]
  · rw [if_neg hlen,
      recordInvalid_below now st
        (by simp only [List.length_append, List.length_singleton] at hlen; omega)]
    exact ⟨rfl, rfl⟩

/-- C2 witness: a sorted ten-entry window at `now = 11` crosses the
threshold: the deadline becomes `11 + 300` and the window is cleared. -/
theorem record_invalid_spec_sorted_witness :
    List.Sorted (· ≤ ·) masterTenAttemptsState.invalidAttemptTimestamps ∧
    (recordInvalidAttemptAndMaybeLock 11 masterTenAttemptsState).securityLockUntilEpoch =
      11 + 300 ∧
    (recordInvalidAttemptAndMaybeLock 11 masterTenAttemptsState).invalidAttemptTimestamps = [] := by
  have hs : List.Sorted (· ≤ ·) masterTenAttemptsState.invalidAttemptTimestamps := by decide
  have h := record_invalid_spec_sorted 11 masterTenAttemptsState hs
  rw [if_pos (by decide)] at h
  exact ⟨hs, h.1, h.2⟩

/-- C4: while `now` is strictly before the security-lockout deadline, a
scan of any non-master card is ignored outright: the iteration performs no
record-store user lookup, records no further invalid attempt, leaves the
lockout deadline unchanged, forces both indicator LEDs off, and leaves the
store untouched. -/
theorem lockout_ignores_nonmaster_scans (now : Int) (uid : String)
    (st : ControllerState) (db : Db)
    (hm : isMasterUid st.masterTokenId uid = false)
    (hl : now < st.securityLockUntilEpoch) :
    (∀ t, Effect.getUser t ∉ (runIteration now true (some uid) st db).effects) ∧
    (runIteration now true (some uid) st db).ctrl.invalidAttemptTimestamps =
      st.invalidAttemptTimestamps ∧
    (runIteration now true (some uid) st db).ctrl.securityLockUntilEpoch =
      st.securityLockUntilEpoch ∧
    (runIteration now true (some uid) st db).ctrl.ledRed = false ∧
    (runIteration now true (some uid) st db).ctrl.ledGreen = false ∧
    (runIteration now true (some uid) st db).db = db :=
  runIteration_locked now uid st db hm hl

/-- C4 witness: at time 50 under a lockout until 100, a scan of the
unknown card `"bb"` causes no user lookup. -/
theorem lockout_ignores_nonmaster_scans_witness :
    ((50 : Int) < (100 : Int)) ∧
    Effect.getUser "bb" ∉
      (runIteration 50 true (some "bb")
        { idleState with securityLockUntilEpoch := 100 } normalModeStore).effects :=
  ⟨by decide,
   (lockout_ignores_nonmaster_scans 50 "bb"
      { idleState with securityLockUntilEpoch := 100 } normalModeStore
      (by decide) (by decide)).1 "bb"⟩

/-- C10: while enrolment (scan) mode is active in the settings store, no
scan — of any card, master included, and whatever the reader-reset
outcome — ever records an invalid attempt or engages the security
lockout: the invalid-attempt window is unchanged (or emptied by a master
presentation) and the lockout deadline is unchanged (or cleared), never
extended. -/
theorem enrolment_never_records_invalid (now : Int) (ok : Bool) (uid : String)
    (st : ControllerState) (db : Db)
    (hs : (db.getSetting "scan_mode" == some "1") = true) :
    ((runIteration now ok (some uid) st db).ctrl.invalidAttemptTimestamps =
        st.invalidAttemptTimestamps ∨
      (runIteration now ok (some uid) st db).ctrl.invalidAttemptTimestamps = []) ∧
    ((runIteration now ok (some uid) st db).ctrl.securityLockUntilEpoch =
        st.securityLockUntilEpoch ∨
      (runIteration now ok (some uid) st db).ctrl.securityLockUntilEpoch = 0) := by
  simp only [runIteration]
  by_cases hr : (nfcMaintenance now ok (checkAndDeactivateRelays now st)).2.2 = true
  · rw [if_pos hr]
    constructor <;> left <;> simp
  · rw [if_neg hr]
    have hs2 : ({ (nfcMaintenance now ok (checkAndDeactivateRelays now st)).1 with
        scanMode := db.getSetting "scan_mode" == some "1" } : ControllerState).scanMode = true := hs
    obtain ⟨hw, hsec⟩ := handleCard_window_mono now uid
      { (nfcMaintenance now ok (checkAndDeactivateRelays now st)).1 with
        scanMode := db.getSetting "scan_mode" == some "1" } db hs2
    constructor
    · rcases hw with h | h
      · left
        exact h.trans (by simp)
      · right
        exact h
    · rcases hsec with h | h
      · left
        exact h.trans (by simp)
      · right
        exact h

/-- C10 witness: with scan mode enabled, a scan of an unknown card leaves
the invalid-attempt window unchanged. -/
theorem enrolment_never_records_invalid_witness :
    (scanModeStore.getSetting "scan_mode" == some "1") = true ∧
    ((runIteration 5 true (some "ab") idleState scanModeStore).ctrl.invalidAttemptTimestamps =
        idleState.invalidAttemptTimestamps ∨
      (runIteration 5 true (some "ab") idleState scanModeStore).ctrl.invalidAttemptTimestamps =
        []) :=
  ⟨by decide,
   (enrolment_never_records_invalid 5 true "ab" idleState scanModeStore (by decide)).1⟩

set_option maxRecDepth 10000 in
/-- C1 counterexample: eleven denied scans of the unknown token
`"deadbeef"` at epoch seconds 0..10 all fall within one 60-second window;
after the first ten the window holds ten entries and no lockout is active,
and the eleventh iteration still performs a record-store user lookup
(`getUser` appears in its effect trace) before being denied — contradicting
"the 11th ... is rejected outright without a record-store lookup" — while
the 5-minute lockout does begin at its timestamp (10 + 300). -/
theorem eleventh_scan_store_lookup_cex :
    (runScans invalidBurst idleState normalModeStore).1.invalidAttemptTimestamps =
      [0, 1, 2, 3, 4, 5, 6, 7, 8, 9] ∧
    (runScans invalidBurst idleState normalModeStore).1.securityLockUntilEpoch = 0 ∧
    Effect.getUser "deadbeef" ∈
      (runIteration 10 true (some "deadbeef")
        (runScans invalidBurst idleState normalModeStore).1
        (runScans invalidBurst idleState normalModeStore).2).effects ∧
    (runIteration 10 true (some "deadbeef")
        (runScans invalidBurst idleState normalModeStore).1
        (runScans invalidBurst idleState normalModeStore).2).ctrl.securityLockUntilEpoch =
      10 + 300 := by
  decide

/-- C1 (amended): a denied scan that finds at least ten attempts already
in the pruned 60-second window — the 11th invalid scan of such a burst —
is denied after a normal record-store lookup and starts the 5-minute
lockout at its own timestamp (`now + 300`), clearing the window; and every
subsequent non-master scan while `now` is before the deadline is rejected
outright, with no record-store user lookup, the deadline unchanged and the
store untouched. -/
theorem lockout_engages_on_eleventh_and_rejects_after :
    (∀ (st : ControllerState) (db : Db) (now : Int) (uid : String),
      isMasterUid st.masterTokenId uid = false →
      ¬ now < st.securityLockUntilEpoch →
      st.masterMode = false →
      ¬ now < st.lockUntilEpoch →
      (db.getSetting "scan_mode" == some "1") = false →
      tokenUsable db uid = false →
      10 ≤ (pruneInvalidAttempts now st.invalidAttemptTimestamps).length →
      Effect.getUser uid ∈ (runIteration now true (some uid) st db).effects ∧
      (runIteration now true (some uid) st db).ctrl.securityLockUntilEpoch = now + 300 ∧
      (runIteration now true (some uid) st db).ctrl.invalidAttemptTimestamps = []) ∧
    (∀ (st : ControllerState) (db : Db) (now : Int) (uid : String),
      isMasterUid st.masterTokenId uid = false →
      now < st.securityLockUntilEpoch →
      (∀ t, Effect.getUser t ∉ (runIteration now true (some uid) st db).effects) ∧
      (runIteration now true (some uid) st db).ctrl.securityLockUntilEpoch =
        st.securityLockUntilEpoch ∧
      (runIteration now true (some uid) st db).db = db) := by
  constructor
  · intro st db now uid hm hl hmm heng hsm ha h10
    rw [runIteration_some_eq]
    have hm2 : isMasterUid (refreshedState now st db).masterTokenId uid = false := by
      rw [refreshedState_masterTokenId]; exact hm
    have hl2 : ¬ now < (refreshedState now st db).securityLockUntilEpoch := by
      rw [refreshedState_securityLock]; exact hl
    have hmm2 : (refreshedState now st db).masterMode = false := by
      rw [refreshedState_masterMode]; exact hmm
    have heng2 : ¬ now < (refreshedState now st db).lockUntilEpoch := by
      rw [refreshedState_lockUntil]; exact heng
    have hs2 : (refreshedState now st db).scanMode = false := by
      rw [refreshedState_scanMode]; exact hsm
    rw [handleCard_denied_eq now uid (refreshedState now st db) db hm2 hl2 hmm2 heng2 hs2 ha]
    rw [recordInvalid_engages now _ (by simpa using h10)]
    refine ⟨?_, ?_, ?_⟩
    · simp
    · simp [setLedStatus]
    · simp [setLedStatus]
  · intro st db now uid hm hl
    obtain ⟨h1, _, h3, _, _, h6⟩ := runIteration_locked now uid st db hm hl
    exact ⟨h1, h3, h6⟩

/-- C1 witness: with ten attempts at 0..9 already in the window, a denied
scan of `"deadbeef"` at 10 sets the lockout deadline to `10 + 300`. -/
theorem lockout_engages_on_eleventh_and_rejects_after_witness :
    10 ≤ (pruneInvalidAttempts 10
      ({ idleState with invalidAttemptTimestamps := [0, 1, 2, 3, 4, 5, 6, 7, 8, 9] } :
        ControllerState).invalidAttemptTimestamps).length ∧
    (runIteration 10 true (some "deadbeef")
      { idleState with invalidAttemptTimestamps := [0, 1, 2, 3, 4, 5, 6, 7, 8, 9] }
      normalModeStore).ctrl.securityLockUntilEpoch = 10 + 300 :=
  ⟨by decide,
   (lockout_engages_on_eleventh_and_rejects_after.1
      { idleState with invalidAttemptTimestamps := [0, 1, 2, 3, 4, 5, 6, 7, 8, 9] }
      normalModeStore 10 "deadbeef" (by decide) (by decide) (by decide) (by decide)
      (by decide) (by decide) (by decide)).2.1⟩

/-- C3 counterexample: the controller is in master mode with ten invalid
attempts in the window and no active lockout.  Presenting the master card
`"aa"` at 11 does not empty the window (the clearing is conditional on an
active lockout), and immediately afterwards a single invalid scan of
`"bb"` at 12 does trigger a lockout (deadline 312) — contradicting both
the unconditional clearing and the "single invalid scan does not
re-trigger" consequence. -/
theorem master_presentation_keeps_window_cex :
    (runIteration 11 true (some "aa") masterTenAttemptsState
      normalModeStore).ctrl.invalidAttemptTimestamps ≠ [] ∧
    (runIteration 12 true (some "bb")
        (runIteration 11 true (some "aa") masterTenAttemptsState normalModeStore).ctrl
        (runIteration 11 true (some "aa") masterTenAttemptsState
          normalModeStore).db).ctrl.securityLockUntilEpoch = 312 := by
  decide

/-- C3 (amended): presenting the master token while a lockout is active
(`now` before the deadline) clears the lockout (deadline reset to 0),
empties the invalid-attempt window, leaves the store untouched and
toggles master mode; immediately afterwards a single further scan — of
any card, at any time — cannot re-trigger a lockout: the deadline stays 0
and the window holds at most one timestamp (it stays empty when the
presentation entered master mode, since non-master scans are then ignored
outright; it gains at most the scan's own timestamp when the presentation
exited master mode and the scan is denied).  (When no lockout is active,
a master presentation leaves the window unchanged.) -/
theorem master_clears_active_lockout (st : ControllerState) (db : Db)
    (now t2 : Int) (uid uid2 : String)
    (hm : isMasterUid st.masterTokenId uid = true)
    (hl : now < st.securityLockUntilEpoch) :
    (runIteration now true (some uid) st db).ctrl.securityLockUntilEpoch = 0 ∧
    (runIteration now true (some uid) st db).ctrl.invalidAttemptTimestamps = [] ∧
    (runIteration now true (some uid) st db).ctrl.masterMode = !st.masterMode ∧
    (runIteration now true (some uid) st db).db = db ∧
    (runIteration t2 true (some uid2) (runIteration now true (some uid) st db).ctrl
        (runIteration now true (some uid) st db).db).ctrl.securityLockUntilEpoch = 0 ∧
    ((runIteration t2 true (some uid2) (runIteration now true (some uid) st db).ctrl
        (runIteration now true (some uid) st db).db).ctrl.invalidAttemptTimestamps = [] ∨
      (runIteration t2 true (some uid2) (runIteration now true (some uid) st db).ctrl
        (runIteration now true (some uid) st db).db).ctrl.invalidAttemptTimestamps = [t2]) := by
  have hm2a : isMasterUid (refreshedState now st db).masterTokenId uid = true := by
    rw [refreshedState_masterTokenId]; exact hm
  have hl2a : now < (refreshedState now st db).securityLockUntilEpoch := by
    rw [refreshedState_securityLock]; exact hl
  have h1 : (runIteration now true (some uid) st db).ctrl.securityLockUntilEpoch = 0 ∧
      (runIteration now true (some uid) st db).ctrl.invalidAttemptTimestamps = [] ∧
      (runIteration now true (some uid) st db).ctrl.masterMode = !st.masterMode ∧
      (runIteration now true (some uid) st db).db = db := by
    rw [runIteration_some_eq,
      handleCard_master_locked_toggle now uid (refreshedState now st db) db hm2a hl2a]
    by_cases hb : st.masterMode = true
    · have hb2 : (refreshedState now st db).masterMode = true := by
        rw [refreshedState_masterMode]; exact hb
      refine ⟨?_, ?_, ?_, rfl⟩ <;>
        simp [hb2, hb, exitMasterMode, enterMasterMode, setLedStatus, setAllRelays]
    · have hb1 : st.masterMode = false := by simpa using hb
      have hb2 : (refreshedState now st db).masterMode = false := by
        rw [refreshedState_masterMode]; exact hb1
      refine ⟨?_, ?_, ?_, rfl⟩ <;>
        simp [hb2, hb1, exitMasterMode, enterMasterMode, setLedStatus, setAllRelays]
  obtain ⟨ha1, ha2, ha3, ha4⟩ := h1
  have h2 := runIteration_from_cleared t2 uid2
    (runIteration now true (some uid) st db).ctrl
    (runIteration now true (some uid) st db).db ha2 ha1
  exact ⟨ha1, ha2, ha3, ha4, h2.1, h2.2⟩

/-- C3 witness: a master presentation at 11 during an active lockout
(deadline 100, master mode off — the configuration lockouts actually
arise in) clears the deadline, and the follow-up scan of `"bb"` at 12
leaves the window empty or with at most its own timestamp. -/
theorem master_clears_active_lockout_witness :
    ((11 : Int) < (100 : Int)) ∧
    (runIteration 11 true (some "aa")
      { idleState with masterTokenId := some "aa", securityLockUntilEpoch := 100 }
      normalModeStore).ctrl.securityLockUntilEpoch = 0 ∧
    ((runIteration 12 true (some "bb")
        (runIteration 11 true (some "aa")
          { idleState with masterTokenId := some "aa", securityLockUntilEpoch := 100 }
          normalModeStore).ctrl
        (runIteration 11 true (some "aa")
          { idleState with masterTokenId := some "aa", securityLockUntilEpoch := 100 }
          normalModeStore).db).ctrl.invalidAttemptTimestamps = [] ∨
      (runIteration 12 true (some "bb")
        (runIteration 11 true (some "aa")
          { idleState with masterTokenId := some "aa", securityLockUntilEpoch := 100 }
          normalModeStore).ctrl
        (runIteration 11 true (some "aa")
          { idleState with masterTokenId := some "aa", securityLockUntilEpoch := 100 }
          normalModeStore).db).ctrl.invalidAttemptTimestamps = [12]) :=
  ⟨by decide,
   (master_clears_active_lockout
      { idleState with masterTokenId := some "aa", securityLockUntilEpoch := 100 }
      normalModeStore 11 12 "aa" "bb" (by decide) (by decide)).1,
   (master_clears_active_lockout
      { idleState with masterTokenId := some "aa", securityLockUntilEpoch := 100 }
      normalModeStore 11 12 "aa" "bb" (by decide) (by decide)).2.2.2.2.2⟩

/-- C6: an authorized scan in normal mode activates for 90 seconds when
more than 3 hours (10800 s) have elapsed since the last authorized
activation and for the base 30 seconds otherwise; the engagement lock is
set to `now + duration + 1` second of grace, the relay timer to
`now + duration` with all four relay outputs on, the indicator goes to
'active' (green), the last-use time becomes `now`, and a usage-log entry
is appended (after the store lookup). -/
theorem authorized_scan_activation (now : Int) (uid : String)
    (st : ControllerState) (db : Db)
    (hm : isMasterUid st.masterTokenId uid = false)
    (hl : ¬ now < st.securityLockUntilEpoch)
    (hmm : st.masterMode = false)
    (heng : ¬ now < st.lockUntilEpoch)
    (hsm : (db.getSetting "scan_mode" == some "1") = false)
    (ha : tokenUsable db uid = true) :
    (runIteration now true (some uid) st db).ctrl.relayDeactivationTime =
      now + (if now - st.lastUsedTime > 10800 then 90 else 30) ∧
    (runIteration now true (some uid) st db).ctrl.lockUntilEpoch =
      now + (if now - st.lastUsedTime > 10800 then 90 else 30) + 1 ∧
    (runIteration now true (some uid) st db).ctrl.relayPower = true ∧
    (runIteration now true (some uid) st db).ctrl.relaySingle = true ∧
    (runIteration now true (some uid) st db).ctrl.relayDouble = true ∧
    (runIteration now true (some uid) st db).ctrl.relaySteam = true ∧
    (runIteration now true (some uid) st db).ctrl.ledRed = false ∧
    (runIteration now true (some uid) st db).ctrl.ledGreen = true ∧
    (runIteration now true (some uid) st db).ctrl.lastUsedTime = now ∧
    Effect.getUser uid ∈ (runIteration now true (some uid) st db).effects ∧
    Effect.logUsage uid ∈ (runIteration now true (some uid) st db).effects ∧
    (runIteration now true (some uid) st db).db.usageLog = db.usageLog ++ [uid] := by
  rw [runIteration_some_eq]
  have hm2 : isMasterUid (refreshedState now st db).masterTokenId uid = false := by
    rw [refreshedState_masterTokenId]; exact hm
  have hl2 : ¬ now < (refreshedState now st db).securityLockUntilEpoch := by
    rw [refreshedState_securityLock]; exact hl
  have hmm2 : (refreshedState now st db).masterMode = false := by
    rw [refreshedState_masterMode]; exact hmm
  have heng2 : ¬ now < (refreshedState now st db).lockUntilEpoch := by
    rw [refreshedState_lockUntil]; exact heng
  have hs2 : (refreshedState now st db).scanMode = false := by
    rw [refreshedState_scanMode]; exact hsm
  rw [handleCard_authorized_eq now uid (refreshedState now st db) db hm2 hl2 hmm2 heng2 hs2 ha]
  refine ⟨?_, ?_, ?_, ?_, ?_, ?_, ?_, ?_, ?_, ?_, ?_, ?_⟩ <;>
    simp [activateAllRelays, setAllRelays, setLedStatus, Db.logUsage]

/-- C6 witness: the enabled user `"cafe"` scanned at 20000 with last use
at 0 (idle for more than 3 hours) switches all relays on. -/
theorem authorized_scan_activation_witness :
    tokenUsable oneUserStore "cafe" = true ∧
    (runIteration 20000 true (some "cafe") idleState oneUserStore).ctrl.relayPower = true :=
  ⟨by decide,
   (authorized_scan_activation 20000 "cafe" idleState oneUserStore
      (by decide) (by decide) (by decide) (by decide) (by decide) (by decide)).2.2.1⟩

/-- C5: reader maintenance in every loop iteration: the periodic reset
fires when `now - last_reset_time` exceeds 30 minutes and the appliance is
not engaged (no live relay timer, master mode off), setting both
`last_scan_time` and `last_reset_time` to `now`; when engaged it is
deferred with no state change and no backlog; the watchdog reset is
checked only if the periodic condition did not hold and fires when
`now - last_scan_time` exceeds 15 minutes under the same guard with the
same effect; and a triggered reset whose hardware sequence fails escalates
to a full process restart, ending the iteration. -/
theorem nfc_reset_triggers_in_loop :
    ∀ (st : ControllerState) (db : Db) (now : Int) (uidRead : Option String),
      (now - st.lastNfcResetTime > 30 * 60 → isRelayActive now st = false →
        (runIteration now true uidRead st db).ctrl.lastNfcResetTime = now ∧
        (runIteration now true uidRead st db).ctrl.lastScanTime = now ∧
        Effect.nfcReset true ∈ (runIteration now true uidRead st db).effects ∧
        (runIteration now true uidRead st db).restarted = false) ∧
      (now - st.lastNfcResetTime > 30 * 60 → isRelayActive now st = true →
        (runIteration now true uidRead st db).ctrl.lastNfcResetTime = st.lastNfcResetTime ∧
        (∀ b, Effect.nfcReset b ∉ (runIteration now true uidRead st db).effects) ∧
        Effect.restartScript ∉ (runIteration now true uidRead st db).effects) ∧
      (¬ now - st.lastNfcResetTime > 30 * 60 → now - st.lastScanTime > 15 * 60 →
        isRelayActive now st = false →
        (runIteration now true uidRead st db).ctrl.lastNfcResetTime = now ∧
        (runIteration now true uidRead st db).ctrl.lastScanTime = now ∧
        Effect.nfcReset false ∈ (runIteration now true uidRead st db).effects) ∧
      (¬ now - st.lastNfcResetTime > 30 * 60 → now - st.lastScanTime > 15 * 60 →
        isRelayActive now st = true →
        (runIteration now true uidRead st db).ctrl.lastNfcResetTime = st.lastNfcResetTime ∧
        (∀ b, Effect.nfcReset b ∉ (runIteration now true uidRead st db).effects)) ∧
      ((now - st.lastNfcResetTime > 30 * 60 ∨ now - st.lastScanTime > 15 * 60) →
        isRelayActive now st = false →
        (runIteration now false uidRead st db).restarted = true ∧
        Effect.restartScript ∈ (runIteration now false uidRead st db).effects) := by
  intro st db now uidRead
  refine ⟨?_, ?_, ?_, ?_, ?_⟩
  · intro h1 h2
    have hfire := nfcMaintenance_periodic_fired now (checkAndDeactivateRelays now st)
      (by rw [tick_lastNfcResetTime]; exact h1) (by rwa [isRelayActive_tick])
    cases uidRead with
    | none =>
        simp only [runIteration, hfire]
        refine ⟨?_, ?_, ?_, ?_⟩ <;> simp
    | some uid =>
        simp only [runIteration, hfire]
        refine ⟨?_, ?_, ?_, ?_⟩ <;> simp
  · intro h1 h2
    have hdef := nfcMaintenance_periodic_deferred now true (checkAndDeactivateRelays now st)
      (by rw [tick_lastNfcResetTime]; exact h1) (by rwa [isRelayActive_tick])
    cases uidRead with
    | none =>
        simp only [runIteration, hdef]
        refine ⟨by simp, ?_, ?_⟩
        · intro b hb
          simp at hb
        · intro hb
          simp at hb
    | some uid =>
        simp only [runIteration, hdef]
        refine ⟨by simp, ?_, ?_⟩
        · intro b hb
          rcases List.mem_append.mp hb with h | h
          · rcases List.mem_append.mp h with h2 | h2
            · exact List.not_mem_nil _ h2
            · rw [List.mem_singleton] at h2
              exact Effect.noConfusion h2
          · exact (handleCard_no_reset_effects now uid _ db).1 b h
        · intro hb
          rcases List.mem_append.mp hb with h | h
          · rcases List.mem_append.mp h with h2 | h2
            · exact List.not_mem_nil _ h2
            · rw [List.mem_singleton] at h2
              exact Effect.noConfusion h2
          · exact (handleCard_no_reset_effects now uid _ db).2 h
  · intro h1 h2 h3
    have hfire := nfcMaintenance_watchdog_fired now (checkAndDeactivateRelays now st)
      (by rw [tick_lastNfcResetTime]; exact h1)
      (by rw [tick_lastScanTime]; exact h2) (by rwa [isRelayActive_tick])
    cases uidRead with
    | none =>
        simp only [runIteration, hfire]
        refine ⟨?_, ?_, ?_⟩ <;> simp
    | some uid =>
        simp only [runIteration, hfire]
        refine ⟨?_, ?_, ?_⟩ <;> simp
  · intro h1 h2 h3
    have hdef := nfcMaintenance_watchdog_deferred now true (checkAndDeactivateRelays now st)
      (by rw [tick_lastNfcResetTime]; exact h1)
      (by rw [tick_lastScanTime]; exact h2) (by rwa [isRelayActive_tick])
    cases uidRead with
    | none =>
        simp only [runIteration, hdef]
        refine ⟨by simp, ?_⟩
        intro b hb
        simp at hb
    | some uid =>
        simp only [runIteration, hdef]
        refine ⟨by simp, ?_⟩
        intro b hb
        rcases List.mem_append.mp hb with h | h
        · rcases List.mem_append.mp h with h2 | h2
          · exact List.not_mem_nil _ h2
          · rw [List.mem_singleton] at h2
            exact Effect.noConfusion h2
        · exact (handleCard_no_reset_effects now uid _ db).1 b h
  · intro h1 h2
    have hfail := nfcMaintenance_failed now (checkAndDeactivateRelays now st)
      (by rw [tick_lastNfcResetTime, tick_lastScanTime]; exact h1)
      (by rwa [isRelayActive_tick])
    simp only [runIteration]
    rw [if_pos hfail.1]
    exact ⟨rfl, hfail.2⟩

/-- C5 witness: an idle controller whose last reset was 2000 seconds ago
gets a periodic reset that updates the reset tracker to `now = 0`. -/
theorem nfc_reset_triggers_in_loop_witness :
    ((0 : Int) - ({ idleState with lastNfcResetTime := -2000 } :
      ControllerState).lastNfcResetTime > 30 * 60) ∧
    (runIteration 0 true none { idleState with lastNfcResetTime := -2000 }
      normalModeStore).ctrl.lastNfcResetTime = 0 :=
  ⟨by decide,
   ((nfc_reset_triggers_in_loop { idleState with lastNfcResetTime := -2000 }
      normalModeStore 0 none).1 (by decide) (by decide)).1⟩

/-- C7: with enrolment (scan) mode active, scanning an identifier absent
from the record store creates exactly one pending row — active 0, barred 1,
placeholder name "Pending" — and a second scan of the same identifier
creates no duplicate and leaves the user rows unchanged; in neither
iteration is the token treated as authorized: the relay timer and relay
outputs are untouched and no usage-log write occurs. -/
theorem enrolment_creates_single_pending (now t2 : Int) (uid : String)
    (st : ControllerState) (db : Db)
    (hm : isMasterUid st.masterTokenId uid = false)
    (hl : ¬ now < st.securityLockUntilEpoch)
    (hl2 : ¬ t2 < st.securityLockUntilEpoch)
    (hmm : st.masterMode = false)
    (heng : ¬ now < st.lockUntilEpoch)
    (heng2 : ¬ t2 < st.lockUntilEpoch)
    (hs : (db.getSetting "scan_mode" == some "1") = true)
    (habs : db.getUser uid = none)
    (hrel : st.relayDeactivationTime = 0) :
    (runIteration now true (some uid) st db).db.getUser uid =
      some ⟨"pending_" ++ uid, "Pending", 0, 1⟩ ∧
    countUser (runIteration now true (some uid) st db).db uid = 1 ∧
    (runIteration t2 true (some uid) (runIteration now true (some uid) st db).ctrl
        (runIteration now true (some uid) st db).db).db.users =
      (runIteration now true (some uid) st db).db.users ∧
    (runIteration now true (some uid) st db).ctrl.relayDeactivationTime = 0 ∧
    (runIteration now true (some uid) st db).ctrl.relayPower = st.relayPower ∧
    (runIteration now true (some uid) st db).ctrl.relaySingle = st.relaySingle ∧
    (runIteration now true (some uid) st db).ctrl.relayDouble = st.relayDouble ∧
    (runIteration now true (some uid) st db).ctrl.relaySteam = st.relaySteam ∧
    (∀ t, Effect.logUsage t ∉ (runIteration now true (some uid) st db).effects) ∧
    (∀ t, Effect.logUsage t ∉
      (runIteration t2 true (some uid) (runIteration now true (some uid) st db).ctrl
        (runIteration now true (some uid) st db).db).effects) := by
  have hm2 : isMasterUid (refreshedState now st db).masterTokenId uid = false := by
    rw [refreshedState_masterTokenId]; exact hm
  have hl2a : ¬ now < (refreshedState now st db).securityLockUntilEpoch := by
    rw [refreshedState_securityLock]; exact hl
  have hmm2 : (refreshedState now st db).masterMode = false := by
    rw [refreshedState_masterMode]; exact hmm
  have heng2a : ¬ now < (refreshedState now st db).lockUntilEpoch := by
    rw [refreshedState_lockUntil]; exact heng
  have hs2 : (refreshedState now st db).scanMode = true := by
    rw [refreshedState_scanMode]; exact hs
  have hsome : (db.getUser uid).isSome = false := by rw [habs]; rfl
  rw [runIteration_some_eq,
    handleCard_scan_eq now uid (refreshedState now st db) db hm2 hl2a hmm2 heng2a hs2,
    hsome]
  simp only [Bool.false_eq_true, if_false]
  set DB1 := ((db.setSetting "last_scanned_token" uid).setSetting "last_scanned_at"
    (toString now)).addPendingUser uid with hDB1
  have habs1 : ((db.setSetting "last_scanned_token" uid).setSetting "last_scanned_at"
      (toString now)).getUser uid = none := by
    rw [getUser_setSetting, getUser_setSetting, habs]
  have f1 : DB1.getUser uid = some ⟨"pending_" ++ uid, "Pending", 0, 1⟩ := by
    rw [hDB1]
    exact getUser_addPending_self _ uid habs1
  have f2 : countUser DB1 uid = 1 := by
    rw [hDB1]
    exact countUser_addPending_absent _ uid habs1
  have f3 : DB1.getSetting "scan_mode" = db.getSetting "scan_mode" := by
    rw [hDB1, getSetting_addPending,
      getSetting_setSetting_ne _ _ _ _ (by decide),
      getSetting_setSetting_ne _ _ _ _ (by decide)]
  have hm3 : isMasterUid
      (refreshedState t2 { refreshedState now st db with lastScanTime := now }
        DB1).masterTokenId uid = false := by
    rw [refreshedState_masterTokenId]
    simpa using hm
  have hl3 : ¬ t2 < (refreshedState t2 { refreshedState now st db with lastScanTime := now }
      DB1).securityLockUntilEpoch := by
    rw [refreshedState_securityLock]
    simpa using hl2
  have hmm3 : (refreshedState t2 { refreshedState now st db with lastScanTime := now }
      DB1).masterMode = false := by
    rw [refreshedState_masterMode]
    simpa using hmm
  have heng3 : ¬ t2 < (refreshedState t2 { refreshedState now st db with lastScanTime := now }
      DB1).lockUntilEpoch := by
    rw [refreshedState_lockUntil]
    simpa using heng2
  have hs3 : (refreshedState t2 { refreshedState now st db with lastScanTime := now }
      DB1).scanMode = true := by
    rw [refreshedState_scanMode, f3]
    exact hs
  have hsome2 : (DB1.getUser uid).isSome = true := by rw [f1]; rfl
  rw [runIteration_some_eq,
    handleCard_scan_eq t2 uid
      (refreshedState t2 { refreshedState now st db with lastScanTime := now } DB1) DB1
      hm3 hl3 hmm3 heng3 hs3,
    hsome2]
  simp only [if_true]
  obtain ⟨hv0, hv1, hv2, hv3, hv4⟩ := refreshedState_relays now st db hrel
  refine ⟨f1, f2, by simp, ?_, ?_, ?_, ?_, ?_, ?_, ?_⟩
  · simpa using hv0
  · simpa using hv1
  · simpa using hv2
  · simpa using hv3
  · simpa using hv4
  · intro t ht
    rcases List.mem_append.mp ht with h | h
    · rcases List.mem_append.mp h with h2 | h2
      · rcases nfcMaintenance_effects_shape now true (checkAndDeactivateRelays now st)
          _ h2 with h3 | h3 | h3 <;> exact Effect.noConfusion h3
      · rw [List.mem_singleton] at h2
        exact Effect.noConfusion h2
    · simp at h
  · intro t ht
    rcases List.mem_append.mp ht with h | h
    · rcases List.mem_append.mp h with h2 | h2
      · rcases nfcMaintenance_effects_shape t2 true
          (checkAndDeactivateRelays t2 { refreshedState now st db with lastScanTime := now })
          _ h2 with h3 | h3 | h3 <;> exact Effect.noConfusion h3
      · rw [List.mem_singleton] at h2
        exact Effect.noConfusion h2
    · simp at h

/-- C7 witness: in scan mode, an unknown token `"ab"` scanned at 5 yields
exactly one pending row with active 0 and barred 1. -/
theorem enrolment_creates_single_pending_witness :
    (scanModeStore.getUser "ab" = none) ∧
    (runIteration 5 true (some "ab") idleState scanModeStore).db.getUser "ab" =
      some ⟨"pending_" ++ "ab", "Pending", 0, 1⟩ ∧
    countUser (runIteration 5 true (some "ab") idleState scanModeStore).db "ab" = 1 :=
  ⟨by decide,
   (enrolment_creates_single_pending 5 6 "ab" idleState scanModeStore
      (by decide) (by decide) (by decide) (by decide) (by decide) (by decide)
      (by decide) (by decide) (by decide)).1,
   (enrolment_creates_single_pending 5 6 "ab" idleState scanModeStore
      (by decide) (by decide) (by decide) (by decide) (by decide) (by decide)
      (by decide) (by decide) (by decide)).2.1⟩

end CoffeeManager
